import Mathlib

/-!
Verification of the cobalt_tools client library: a shallow embedding of the
request model (src/structs/media_request.rs), the response model
(src/structs/media_response.rs), the error taxonomy
(src/structs/media_error.rs), the status model (src/structs/status.rs) and
the protocol client / download streamer (src/api/client.rs), together with
theorems about serialization, untagged decoding, outcome classification and
download pre-flight checks.
-/

namespace Cobalt

/-! ### JSON values (wire payloads) -/

/-- A JSON value, as produced or consumed by serde_json. -/
inductive Json where
  | null : Json
  | bool : Bool → Json
  | num : Nat → Json
  | str : String → Json
  | arr : List Json → Json
  | obj : List (String × Json) → Json
deriving Repr

/-- Keys of a JSON object, in serialization order (empty for non-objects). -/
def Json.keys : Json → List String
  | .obj fields => fields.map Prod.fst
  | _ => []

/-- Field values of a JSON object (empty for non-objects). -/
def Json.vals : Json → List Json
  | .obj fields => fields.map Prod.snd
  | _ => []

/-- First binding of key k in an association list (serde reads the first
occurrence of a field; later defs reuse it for headers too). -/
def lookupFirst {α : Type} : List (String × α) → String → Option α
  | [], _ => none
  | (k2, v) :: rest, k => if k2 = k then some v else lookupFirst rest k

/-! ### Request model: MediaRequestData (src/structs/media_request.rs lines 3-32).
url and filename_style are plain string fields (always serialized); every
other field is an Option with skip_serializing_if Option.is_none, so it is
omitted from the payload when unset. Rust derive(Default) gives empty
strings and none. -/

structure MediaRequestData where
  url : String := ""
  video_quality : Option String := none
  audio_format : Option String := none
  audio_bitrate : Option String := none
  filename_style : String := ""
  download_mode : Option String := none
  youtube_video_codec : Option String := none
  youtube_dub_lang : Option String := none
  always_proxy : Option Bool := none
  disable_metadata : Option Bool := none
  tiktok_full_audio : Option Bool := none
  tiktok_h265 : Option Bool := none
  twitter_gif : Option Bool := none
  youtube_hls : Option Bool := none
deriving Repr

/-- Serialization of one optional string field under serde
skip_serializing_if Option.is_none: omitted when none. -/
def optStrField (k : String) : Option String → List (String × Json)
  | none => []
  | some s => [(k, Json.str s)]

/-- Serialization of one optional bool field under serde
skip_serializing_if Option.is_none: omitted when none. -/
def optBoolField (k : String) : Option Bool → List (String × Json)
  | none => []
  | some b => [(k, Json.bool b)]

/-- serde_json serialization of MediaRequestData: fields in declaration
order, renamed to camelCase, Option fields skipped when none; url and
filenameStyle are unconditional. -/
def serializeMediaRequestData (r : MediaRequestData) : Json :=
  Json.obj ([("url", Json.str r.url)]
    ++ optStrField "videoQuality" r.video_quality
    ++ optStrField "audioFormat" r.audio_format
    ++ optStrField "audioBitrate" r.audio_bitrate
    ++ [("filenameStyle", Json.str r.filename_style)]
    ++ optStrField "downloadMode" r.download_mode
    ++ optStrField "youtubeVideoCodec" r.youtube_video_codec
    ++ optStrField "youtubeDubLang" r.youtube_dub_lang
    ++ optBoolField "alwaysProxy" r.always_proxy
    ++ optBoolField "disableMetadata" r.disable_metadata
    ++ optBoolField "tiktokFullAudio" r.tiktok_full_audio
    ++ optBoolField "tiktokH265" r.tiktok_h265
    ++ optBoolField "twitterGif" r.twitter_gif
    ++ optBoolField "youtubeHLS" r.youtube_hls)

/-- A request built with only url set: all other fields keep their
derive(Default) values (none for the Option fields, empty string for
filename_style). -/
def onlyUrlRequest (u : String) : MediaRequestData := { url := u }

/-! ### DownloadMode (src/structs/media_request.rs lines 34-58). -/

inductive DownloadMode where
  | Auto : DownloadMode
  | Audio : DownloadMode
  | Mute : DownloadMode
deriving Repr, DecidableEq

def DownloadMode.to_string : DownloadMode → String
  | .Auto => "auto"
  | .Audio => "audio"
  | .Mute => "mute"

def DownloadMode.from_str (input : String) : Option DownloadMode :=
  match input with
  | "auto" => some .Auto
  | "audio" => some .Audio
  | "mute" => some .Mute
  | _ => none

/-! ### Response model (src/structs/media_response.rs). -/

inductive Status where
  | Error : Status
  | Picker : Status
  | Redirect : Status
deriving Repr, DecidableEq

structure ErrorContext where
  service : Option String
  limit : Option Nat
deriving Repr, DecidableEq

structure ErrorDetails where
  code : String
  context : Option ErrorContext
deriving Repr, DecidableEq

structure ErrorResponse where
  status : String
  error : ErrorDetails
deriving Repr, DecidableEq

structure MediaItem where
  type : String
  url : String
  thumb : Option String
deriving Repr, DecidableEq

structure PickerResponse where
  status : String
  audio : Option String
  audio_filename : Option String
  picker : List MediaItem
deriving Repr, DecidableEq

structure RedirectResponse where
  status : String
  url : String
  filename : String
deriving Repr, DecidableEq

/-- The untagged three-way response union. -/
inductive Response where
  | Error : ErrorResponse → Response
  | Picker : PickerResponse → Response
  | Redirect : RedirectResponse → Response
deriving Repr, DecidableEq

def Response.get_status : Response → Status
  | .Error _ => .Error
  | .Picker _ => .Picker
  | .Redirect _ => .Redirect

/-! Structural decoders, one per variant, mirroring the serde derived
Deserialize impls: a required field must be present with the right type,
an Option field may be absent or null (both decode to none), unknown
fields are ignored. -/

/-- Decode a JSON string. -/
def asString : Json → Option String
  | .str s => some s
  | _ => none

/-- Decode a JSON number as a u64. -/
def asU64 : Json → Option Nat
  | .num n => if n < 2 ^ 64 then some n else none
  | _ => none

/-- Decode a required field of an object. -/
def reqField {α : Type} (dec : Json → Option α) (fields : List (String × Json))
    (k : String) : Option α :=
  (lookupFirst fields k).bind dec

/-- Decode a serde Option field: absent or null gives none, a present
non-null value must decode. -/
def optionField {α : Type} (dec : Json → Option α) (fields : List (String × Json))
    (k : String) : Option (Option α) :=
  match lookupFirst fields k with
  | none => some none
  | some .null => some none
  | some v => (dec v).map some

def asObj : Json → Option (List (String × Json))
  | .obj fields => some fields
  | _ => none

def decodeErrorContext (j : Json) : Option ErrorContext := do
  let fields ← asObj j
  let service ← optionField asString fields "service"
  let limit ← optionField asU64 fields "limit"
  pure ⟨service, limit⟩

def decodeErrorDetails (j : Json) : Option ErrorDetails := do
  let fields ← asObj j
  let code ← reqField asString fields "code"
  let context ← optionField decodeErrorContext fields "context"
  pure ⟨code, context⟩

def decodeErrorResponse (j : Json) : Option ErrorResponse := do
  let fields ← asObj j
  let status ← reqField asString fields "status"
  let err ← reqField decodeErrorDetails fields "error"
  pure ⟨status, err⟩

def decodeMediaItem (j : Json) : Option MediaItem := do
  let fields ← asObj j
  let t ← reqField asString fields "type"
  let url ← reqField asString fields "url"
  let thumb ← optionField asString fields "thumb"
  pure ⟨t, url, thumb⟩

def asArr : Json → Option (List Json)
  | .arr xs => some xs
  | _ => none

def decodePickerResponse (j : Json) : Option PickerResponse := do
  let fields ← asObj j
  let status ← reqField asString fields "status"
  let audioUrl ← optionField asString fields "audio"
  let audioFilename ← optionField asString fields "audio_filename"
  let pickerItems ← reqField asArr fields "picker"
  let items ← pickerItems.mapM decodeMediaItem
  pure ⟨status, audioUrl, audioFilename, items⟩

def decodeRedirectResponse (j : Json) : Option RedirectResponse := do
  let fields ← asObj j
  let status ← reqField asString fields "status"
  let url ← reqField asString fields "url"
  let filename ← reqField asString fields "filename"
  pure ⟨status, url, filename⟩

/-- serde untagged decoding of Response: try each variant in declaration
order (Error, Picker, Redirect), first success wins; if none matches the
decode fails. -/
def decodeResponse (j : Json) : Option Response :=
  match decodeErrorResponse j with
  | some e => some (.Error e)
  | none =>
    match decodePickerResponse j with
    | some p => some (.Picker p)
    | none => (decodeRedirectResponse j).map .Redirect

/-! ### Error taxonomy (src/structs/media_error.rs lines 16-21). -/

inductive MediaError where
  | RequestError : String → MediaError
  | DeserializationError : String → MediaError
  | ApiError : String → MediaError
deriving Repr, DecidableEq

/-! ### Status model (src/structs/status.rs). -/

structure CobaltStatus where
  version : String
  url : String
  start_time : String
  duration_limit : Nat
  services : List String
deriving Repr, DecidableEq

structure Git where
  branch : String
  commit : String
  remote : String
deriving Repr, DecidableEq

structure StatusResponse where
  cobalt : CobaltStatus
  git : Git
deriving Repr, DecidableEq

/-! ### Protocol client (src/api/client.rs). -/

structure Client where
  api_key : String
  instance_uri : String
deriving Repr, DecidableEq

/-- Outcome of Client::new: panics (via expect) when an environment
variable is absent, otherwise yields the constructed client. -/
inductive NewOutcome where
  | panicked : String → NewOutcome
  | ok : Client → NewOutcome
deriving Repr, DecidableEq

/-- Client::new (src/api/client.rs lines 23-32) over an abstract
environment: reads API_KEY then INSTANCE_URI, panicking with the expect
message when one is missing. -/
def clientNew (env : String → Option String) : NewOutcome :=
  match env "API_KEY" with
  | none => .panicked "Expected API_KEY in the environment"
  | some key =>
    match env "INSTANCE_URI" with
    | none => .panicked "Expected INSTANCE_URI in the environment"
    | some uri => .ok ⟨key, uri⟩

/-- services (src/api/client.rs lines 104-112), over the outcome of the
status call (transport and decode failures arrive as the error string of
the ? propagation): an empty services list is turned into the explicit
No services found error, otherwise the list is returned unchanged. -/
def services (statusResult : Except String StatusResponse) :
    Except String (List String) :=
  match statusResult with
  | .error e => .error e
  | .ok status =>
    if status.cobalt.services.isEmpty then .error "No services found"
    else .ok status.cobalt.services

/-- reqwest StatusCode::is_success: 200..=299. -/
def isSuccessStatus (st : Nat) : Bool := 200 ≤ st && st < 300

/-- An HTTP request as built by get_media: target URI, headers in insertion
order, serialized JSON body. -/
structure HttpRequest where
  uri : String
  headers : List (String × String)
  body : Json
deriving Repr

/-- The request get_media builds (src/api/client.rs lines 159-172): the
per-call override key wins over the stored one, and the Authorization
header carries Api-Key plus the resolved credential. -/
def buildMediaRequest (c : Client) (override_api_key : Option String)
    (video_data : MediaRequestData) : HttpRequest :=
  let key := override_api_key.getD c.api_key
  { uri := c.instance_uri
    headers := [("Content-Type", "application/json"),
                ("Accept", "application/json"),
                ("User-Agent", "Cobalt"),
                ("Authorization", "Api-Key " ++ key)]
    body := serializeMediaRequestData video_data }

/-- What one send().await exchange can produce: a transport failure with
the underlying message, or a completed response with a status code, the
best-effort body text (text().await) and the body parsed as JSON when it
is syntactically valid JSON (the error string is the JSON-syntax message
otherwise). -/
inductive SendOutcome where
  | sendFailure : String → SendOutcome
  | response : Nat → Except String String → Except String Json → SendOutcome
deriving Repr

/-- Debug formatting of the text().await result embedded in the ApiError
message. -/
def textDebug : Except String String → String
  | .ok s => "Ok(" ++ s ++ ")"
  | .error e => "Err(" ++ e ++ ")"

/-- The ApiError message built at src/api/client.rs lines 185-189. -/
def apiErrorMsg (st : Nat) (t : Except String String) : String :=
  "API request failed with status: " ++ toString st ++ " | " ++ textDebug t

/-- The serde message when a payload matches no variant of the untagged
Response enum. -/
def untaggedNoMatchMsg : String :=
  "error decoding response body: data did not match any variant of untagged enum Response"

/-- Classification of one exchange outcome by get_media (src/api/client.rs
lines 174-202), in the code's priority order: transport failure, then
non-success status, then body decode failure, then success. -/
def classifyMediaOutcome (outcome : SendOutcome) : Except MediaError Response :=
  match outcome with
  | .sendFailure e => .error (.RequestError ("Failed to send request: " ++ e))
  | .response st bodyText bodyJson =>
    if !isSuccessStatus st then .error (.ApiError (apiErrorMsg st bodyText))
    else
      match bodyJson with
      | .error e => .error (.DeserializationError ("Failed to parse response: " ++ e))
      | .ok j =>
        match decodeResponse j with
        | none =>
          .error (.DeserializationError ("Failed to parse response: " ++ untaggedNoMatchMsg))
        | some r => .ok r

/-- get_media (src/api/client.rs lines 154-203): builds the request,
performs exactly one exchange (attempt index 0 of the abstract transport)
and classifies its outcome; no retry in any branch. -/
def get_media (c : Client) (override_api_key : Option String)
    (video_data : MediaRequestData)
    (transport : HttpRequest → Nat → SendOutcome) : Except MediaError Response :=
  classifyMediaOutcome (transport (buildMediaRequest c override_api_key video_data) 0)

/-! ### Download streamer (src/api/client.rs lines 205-237). -/

/-- The response to the download GET: status code, raw Content-Length
header when present, and the body as a stream of chunks, each either bytes
or a mid-stream error. -/
structure DownloadResponse where
  status : Nat
  contentLength : Option String
  chunks : List (Except String (List Nat))
deriving Repr

/-- HeaderValue::to_str: succeeds only when every character of the header
value is visible ASCII. -/
def headerToStr (s : String) : Except String String :=
  if s.data.all (fun c => 32 ≤ c.toNat && c.toNat < 127) then .ok s
  else .error "failed to convert header to a str"

/-- Value of a string of ASCII digits, most significant first. -/
def digitsToNat (cs : List Char) : Nat :=
  cs.foldl (fun acc c => acc * 10 + (c.toNat - 48)) 0

/-- str::parse::<u64>: optional leading plus sign, then one or more ASCII
digits, value within u64 range. -/
def parseU64 (s : String) : Except String Nat :=
  let cs :=
    match s.data with
    | c :: rest => if c = '+' then rest else s.data
    | [] => []
  if cs.isEmpty then .error "cannot parse integer from empty string"
  else if cs.all (fun c => '0' ≤ c && c ≤ '9') then
    if digitsToNat cs < 2 ^ 64 then .ok (digitsToNat cs)
    else .error "number too large to fit in target type"
  else .error "invalid digit found in string"

/-- Outcome of the download: clean completion, a typed error (the ? and
early-return paths), or a panic (the expect on File::create). -/
inductive DownloadOutcome where
  | completed : DownloadOutcome
  | failed : String → DownloadOutcome
  | panicked : String → DownloadOutcome
deriving Repr, DecidableEq

/-- Copies the body chunk by chunk into the created file; a chunk error
aborts and leaves the partial output in place. -/
def streamToFile : List (Except String (List Nat)) → List Nat →
    DownloadOutcome × Option (List Nat)
  | [], acc => (.completed, some acc)
  | .error e :: _, acc => (.failed e, some acc)
  | .ok c :: rest, acc => streamToFile rest (acc ++ c)

/-- download (src/api/client.rs lines 205-237) over an abstract transport
result, a flag saying whether File::create succeeds, and the prior
contents of the destination path (none when no file exists there). The
second component is the destination state afterwards. Order of the code:
Content-Length presence, header to_str, u64 parse, zero check, then the
status check, then File::create (panicking via expect on failure), then
the chunk loop. -/
def download (transport : Except String DownloadResponse) (createOk : Bool)
    (dest : Option (List Nat)) : DownloadOutcome × Option (List Nat) :=
  match transport with
  | .error e => (.failed e, dest)
  | .ok resp =>
    match resp.contentLength with
    | none => (.failed "Content-Length header is missing.", dest)
    | some header =>
      match headerToStr header with
      | .error e => (.failed e, dest)
      | .ok s =>
        match parseU64 s with
        | .error e => (.failed e, dest)
        | .ok n =>
          if n = 0 then (.failed "File has a content length of 0 bytes.", dest)
          else if !isSuccessStatus resp.status then
            (.failed ("Failed to download file: HTTP " ++ toString resp.status), dest)
          else if !createOk then (.panicked "Failed to create file", dest)
          else streamToFile resp.chunks []

/-- The pre-flight checks of download, in order: header present, header
readable as a string, parses as u64, non-zero, success status. -/
def preflightOk (resp : DownloadResponse) : Bool :=
  match resp.contentLength with
  | none => false
  | some header =>
    match headerToStr header with
    | .error _ => false
    | .ok s =>
      match parseU64 s with
      | .error _ => false
      | .ok n => if n = 0 then false else isSuccessStatus resp.status

/-! ### Helper lemmas -/

theorem optStrField_keys (k : String) (v : Option String) :
    (optStrField k v).map Prod.fst = if v.isSome then [k] else [] := by
  cases v <;> rfl

theorem optBoolField_keys (k : String) (v : Option Bool) :
    (optBoolField k v).map Prod.fst = if v.isSome then [k] else [] := by
  cases v <;> rfl

theorem optStrField_no_null (k x : String) (v : Option String) :
    (x, Json.null) ∉ optStrField k v := by
  cases v <;> simp [optStrField]

theorem optBoolField_no_null (k x : String) (v : Option Bool) :
    (x, Json.null) ∉ optBoolField k v := by
  cases v <;> simp [optBoolField]

theorem streamToFile_ne_panicked (chunks : List (Except String (List Nat)))
    (acc : List Nat) (m : String) : (streamToFile chunks acc).1 ≠ .panicked m := by
  induction chunks generalizing acc with
  | nil => simp [streamToFile]
  | cons c rest ih =>
    cases c with
    | error e => simp [streamToFile]
    | ok bytes => simpa [streamToFile] using ih (acc ++ bytes)

theorem download_preflight_false {resp : DownloadResponse} (b : Bool)
    (dest : Option (List Nat)) (h : preflightOk resp = false) :
    ∃ m, download (.ok resp) b dest = (.failed m, dest) := by
  cases hc : resp.contentLength with
  | none => exact ⟨"Content-Length header is missing.", by simp [download, hc]⟩
  | some header =>
    cases ht : headerToStr header with
    | error e => exact ⟨e, by simp [download, hc, ht]⟩
    | ok s =>
      cases hp : parseU64 s with
      | error e => exact ⟨e, by simp [download, hc, ht, hp]⟩
      | ok n =>
        by_cases hn : n = 0
        · exact ⟨"File has a content length of 0 bytes.", by simp [download, hc, ht, hp, hn]⟩
        · have hs : isSuccessStatus resp.status = false := by
            simpa [preflightOk, hc, ht, hp, hn] using h
          exact ⟨"Failed to download file: HTTP " ++ toString resp.status,
            by simp [download, hc, ht, hp, hn, hs]⟩

theorem download_create_failed {resp : DownloadResponse}
    (dest : Option (List Nat)) (h : preflightOk resp = true) :
    download (.ok resp) false dest = (.panicked "Failed to create file", dest) := by
  cases hc : resp.contentLength with
  | none => simp [preflightOk, hc] at h
  | some header =>
    cases ht : headerToStr header with
    | error e => simp [preflightOk, hc, ht] at h
    | ok s =>
      cases hp : parseU64 s with
      | error e => simp [preflightOk, hc, ht, hp] at h
      | ok n =>
        by_cases hn : n = 0
        · simp [preflightOk, hc, ht, hp, hn] at h
        · have hs : isSuccessStatus resp.status = true := by
            simpa [preflightOk, hc, ht, hp, hn] using h
          simp [download, hc, ht, hp, hn, hs]

theorem download_create_ok {resp : DownloadResponse}
    (dest : Option (List Nat)) (h : preflightOk resp = true) :
    download (.ok resp) true dest = streamToFile resp.chunks [] := by
  cases hc : resp.contentLength with
  | none => simp [preflightOk, hc] at h
  | some header =>
    cases ht : headerToStr header with
    | error e => simp [preflightOk, hc, ht] at h
    | ok s =>
      cases hp : parseU64 s with
      | error e => simp [preflightOk, hc, ht, hp] at h
      | ok n =>
        by_cases hn : n = 0
        · simp [preflightOk, hc, ht, hp, hn] at h
        · have hs : isSuccessStatus resp.status = true := by
            simpa [preflightOk, hc, ht, hp, hn] using h
          simp [download, hc, ht, hp, hn, hs]

/-! ### Claim theorems -/

/-- C1 counterexample: the payload serialized from a request with only url
set does not contain exactly the url field; filenameStyle is serialized
unconditionally (it carries no skip_serializing_if attribute), so the
payload has two fields. -/
theorem c1_counterexample :
    Json.keys (serializeMediaRequestData (onlyUrlRequest "https://example.com"))
      ≠ ["url"] := by decide

/-- C1 (amended): a request built with only url set serializes to exactly
the two fields url and filenameStyle; every Option field left unset is
omitted entirely from the payload (its key is absent), and no field is
ever encoded as null. -/
theorem c1_unset_fields_omitted :
    (∀ u : String,
      Json.keys (serializeMediaRequestData (onlyUrlRequest u)) = ["url", "filenameStyle"]) ∧
    (∀ r : MediaRequestData,
      Json.keys (serializeMediaRequestData r) =
        ["url"]
          ++ (if r.video_quality.isSome then ["videoQuality"] else [])
          ++ (if r.audio_format.isSome then ["audioFormat"] else [])
          ++ (if r.audio_bitrate.isSome then ["audioBitrate"] else [])
          ++ ["filenameStyle"]
          ++ (if r.download_mode.isSome then ["downloadMode"] else [])
          ++ (if r.youtube_video_codec.isSome then ["youtubeVideoCodec"] else [])
          ++ (if r.youtube_dub_lang.isSome then ["youtubeDubLang"] else [])
          ++ (if r.always_proxy.isSome then ["alwaysProxy"] else [])
          ++ (if r.disable_metadata.isSome then ["disableMetadata"] else [])
          ++ (if r.tiktok_full_audio.isSome then ["tiktokFullAudio"] else [])
          ++ (if r.tiktok_h265.isSome then ["tiktokH265"] else [])
          ++ (if r.twitter_gif.isSome then ["twitterGif"] else [])
          ++ (if r.youtube_hls.isSome then ["youtubeHLS"] else [])) ∧
    (∀ r : MediaRequestData, Json.null ∉ Json.vals (serializeMediaRequestData r)) := by
  refine ⟨fun u => rfl, fun r => ?_, fun r => ?_⟩
  · simp [serializeMediaRequestData, Json.keys, optStrField_keys, optBoolField_keys]
  · simp [serializeMediaRequestData, Json.vals, optStrField_no_null, optBoolField_no_null]

/-- C8: from_str is a left inverse of to_string on the three variants, and
every other string (empty string and case-variants included) maps to
none. -/
theorem c8_download_mode_bijection :
    (∀ v : DownloadMode, DownloadMode.from_str (DownloadMode.to_string v) = some v) ∧
    (∀ s : String, s ≠ "auto" → s ≠ "audio" → s ≠ "mute" →
      DownloadMode.from_str s = none) := by
  constructor
  · intro v; cases v <;> rfl
  · intro s h1 h2 h3
    unfold DownloadMode.from_str
    split <;> simp_all

/-- C8 witness: the round trip at Audio, and no-match at the case-variant
Auto and at the empty string. -/
theorem c8_witness :
    DownloadMode.from_str (DownloadMode.to_string DownloadMode.Audio)
        = some DownloadMode.Audio ∧
    DownloadMode.from_str "Auto" = none ∧
    DownloadMode.from_str "" = none :=
  ⟨c8_download_mode_bijection.1 DownloadMode.Audio,
   c8_download_mode_bijection.2 "Auto" (by decide) (by decide) (by decide),
   c8_download_mode_bijection.2 "" (by decide) (by decide) (by decide)⟩

/-- C5: the Authorization header always carries Api-Key plus the resolved
credential, the per-call override winning over the stored one; in the
k1/k2 scenario the header is Api-Key k2, which differs from Api-Key k1. -/
theorem c5_credential_resolution :
    (∀ (c : Client) (k2 : String) (vd : MediaRequestData),
      lookupFirst (buildMediaRequest c (some k2) vd).headers "Authorization"
        = some ("Api-Key " ++ k2)) ∧
    (∀ (c : Client) (vd : MediaRequestData),
      lookupFirst (buildMediaRequest c none vd).headers "Authorization"
        = some ("Api-Key " ++ c.api_key)) ∧
    lookupFirst (buildMediaRequest ⟨"k1", "http://svc.local"⟩ (some "k2")
        (onlyUrlRequest "https://example.com")).headers "Authorization"
      = some "Api-Key k2" ∧
    "Api-Key k2" ≠ "Api-Key k1" := by
  refine ⟨fun c k2 vd => rfl, fun c vd => rfl, rfl, by decide⟩

/-- C7: services propagates an upstream failure unchanged, fails with the
explicit No services found error exactly when the decoded services list is
empty, and otherwise returns that list without modification. -/
theorem c7_services_empty_policy :
    (∀ e : String, services (.error e) = .error e) ∧
    (∀ st : StatusResponse, services (.ok st) = .error "No services found" ↔
      st.cobalt.services = []) ∧
    (∀ st : StatusResponse, st.cobalt.services ≠ [] →
      services (.ok st) = .ok st.cobalt.services) := by
  refine ⟨fun e => rfl, fun st => ?_, fun st h => ?_⟩
  · cases hs : st.cobalt.services with
    | nil => simp [services, hs]
    | cons a l =>
      simp only [services, hs]
      simp
  · simp [services, h]

/-- C7 witness: a status with no services fails with the explicit error, a
status with two services returns them in order. -/
theorem c7_witness :
    services (.ok ⟨⟨"10", "https://api", "now", 0, []⟩, ⟨"main", "abc", "origin"⟩⟩)
        = .error "No services found" ∧
    services (.ok ⟨⟨"10", "https://api", "now", 0, ["youtube", "tiktok"]⟩,
        ⟨"main", "abc", "origin"⟩⟩)
        = .ok ["youtube", "tiktok"] :=
  ⟨(c7_services_empty_policy.2.1 _).mpr rfl,
   c7_services_empty_policy.2.2 _ (by decide)⟩

/-- C6: a missing Content-Length header is a hard failure with the
missing-length error and leaves the destination untouched (zero bytes
written); a declared length of exactly zero is a hard failure with the
distinct zero-length error; the two error messages differ. -/
theorem c6_download_length_checks :
    (∀ (resp : DownloadResponse) (b : Bool) (dest : Option (List Nat)),
      resp.contentLength = none →
      download (.ok resp) b dest = (.failed "Content-Length header is missing.", dest)) ∧
    (∀ (resp : DownloadResponse) (b : Bool) (dest : Option (List Nat)) (header s : String),
      resp.contentLength = some header → headerToStr header = .ok s →
      parseU64 s = .ok 0 →
      download (.ok resp) b dest = (.failed "File has a content length of 0 bytes.", dest)) ∧
    "Content-Length header is missing." ≠ "File has a content length of 0 bytes." := by
  refine ⟨fun resp b dest hc => by simp [download, hc],
    fun resp b dest header s hc ht hp => by simp [download, hc, ht, hp], by decide⟩

/-- C6 witness: concrete downloads with a missing header and with a
declared length of zero, each failing with its own message and leaving the
destination unchanged. -/
theorem c6_witness :
    download (.ok ⟨200, none, [.ok [1, 2]]⟩) true (some [9])
        = (.failed "Content-Length header is missing.", some [9]) ∧
    download (.ok ⟨200, some "0", [.ok [1, 2]]⟩) true none
        = (.failed "File has a content length of 0 bytes.", none) :=
  ⟨c6_download_length_checks.1 ⟨200, none, [.ok [1, 2]]⟩ true (some [9]) rfl,
   c6_download_length_checks.2.1 ⟨200, some "0", [.ok [1, 2]]⟩ true none "0" "0" rfl rfl rfl⟩

/-- C10: a transport failure or any pre-flight failure (missing header,
unreadable or malformed length value, zero length, non-success status)
returns before the destination is created or truncated, leaving the
destination state unchanged; conversely, whenever the destination state
changed, the transport succeeded, every pre-flight check passed and the
file creation succeeded. -/
theorem c10_preflight_frame :
    (∀ (e : String) (b : Bool) (dest : Option (List Nat)),
      download (.error e) b dest = (.failed e, dest)) ∧
    (∀ (resp : DownloadResponse) (b : Bool) (dest : Option (List Nat)),
      preflightOk resp = false → (download (.ok resp) b dest).2 = dest) ∧
    (∀ (tr : Except String DownloadResponse) (b : Bool) (dest : Option (List Nat)),
      (download tr b dest).2 ≠ dest →
      ∃ resp, tr = .ok resp ∧ preflightOk resp = true ∧ b = true) := by
  refine ⟨fun e b dest => rfl, fun resp b dest h => ?_, fun tr b dest h => ?_⟩
  · obtain ⟨m, hm⟩ := download_preflight_false b dest h
    rw [hm]
  · cases tr with
    | error e => exact absurd rfl h
    | ok resp =>
      by_cases hpf : preflightOk resp = true
      · cases b with
        | false => rw [download_create_failed dest hpf] at h; exact absurd rfl h
        | true => exact ⟨resp, rfl, hpf, rfl⟩
      · have hpf2 : preflightOk resp = false := by simpa using hpf
        obtain ⟨m, hm⟩ := download_preflight_false b dest hpf2
        rw [hm] at h
        exact absurd rfl h

/-- C10 witness: a pre-flight failure (missing header) leaves a concrete
destination unchanged, and a fully passing download changes it, with the
frame theorem yielding the passing pre-flight. -/
theorem c10_witness :
    (download (.ok ⟨200, none, [.ok [7]]⟩) true (some [1, 2, 3])).2 = some [1, 2, 3] ∧
    (∃ resp, (Except.ok ⟨200, some "5", [.ok [7]]⟩ :
        Except String DownloadResponse) = .ok resp ∧
      preflightOk resp = true ∧ true = true) :=
  ⟨c10_preflight_frame.2.1 ⟨200, none, [.ok [7]]⟩ true (some [1, 2, 3]) rfl,
   c10_preflight_frame.2.2 (.ok ⟨200, some "5", [.ok [7]]⟩) true none (by decide)⟩

/-- C2 counterexample: download panics (File::create(path).expect) when
the destination file cannot be created, here on a response that passes
every pre-flight check; the claim says it returns a typed error value
instead. -/
theorem c2_counterexample :
    (download (.ok ⟨200, some "5", []⟩) false none).1
      = .panicked "Failed to create file" := by decide

/-- C2 (amended): construction panics exactly when API_KEY or INSTANCE_URI
is missing from the environment; download panics exactly when every
pre-flight check passes and the destination file cannot be created, and
returns a typed error value on every other failure; get_media always
returns a typed result (its body serialization is total, so the unwrap on
it cannot fail). -/
theorem c2_panic_conditions :
    (∀ env : String → Option String,
      (∃ m, clientNew env = .panicked m) ↔
        (env "API_KEY" = none ∨ env "INSTANCE_URI" = none)) ∧
    (∀ (tr : Except String DownloadResponse) (b : Bool) (dest : Option (List Nat))
        (m : String),
      (download tr b dest).1 = .panicked m ↔
        (m = "Failed to create file" ∧ b = false ∧
          ∃ resp, tr = .ok resp ∧ preflightOk resp = true)) ∧
    (∀ vd : MediaRequestData, ∃ fields, serializeMediaRequestData vd = .obj fields) ∧
    (∀ outcome : SendOutcome,
      (∃ e, classifyMediaOutcome outcome = .error e) ∨
        (∃ r, classifyMediaOutcome outcome = .ok r)) := by
  refine ⟨fun env => ?_, fun tr b dest m => ?_, fun vd => ⟨_, rfl⟩, fun outcome => ?_⟩
  · cases hk : env "API_KEY" with
    | none => simp [clientNew, hk]
    | some k =>
      cases hu : env "INSTANCE_URI" with
      | none => simp [clientNew, hk, hu]
      | some u => simp [clientNew, hk, hu]
  · constructor
    · intro h
      cases tr with
      | error e => simp [download] at h
      | ok resp =>
        by_cases hpf : preflightOk resp = true
        · cases b with
          | false =>
            rw [download_create_failed dest hpf] at h
            simp only [DownloadOutcome.panicked.injEq] at h
            exact ⟨h.symm, rfl, resp, rfl, hpf⟩
          | true =>
            rw [download_create_ok dest hpf] at h
            exact absurd h (streamToFile_ne_panicked _ _ _)
        · have hpf2 : preflightOk resp = false := by simpa using hpf
          obtain ⟨m2, hm⟩ := download_preflight_false b dest hpf2
          rw [hm] at h
          simp at h
    · rintro ⟨rfl, rfl, resp, rfl, hpf⟩
      rw [download_create_failed dest hpf]
  · cases h : classifyMediaOutcome outcome with
    | error e => exact Or.inl ⟨e, rfl⟩
    | ok r => exact Or.inr ⟨r, rfl⟩

/-- C3: classification of a get_media exchange, in the code's priority
order: transport failure gives RequestError with the transport message;
then a non-success status gives ApiError carrying the status code and
best-effort body text; then a body decode failure gives
DeserializationError with the decode message; otherwise the decoded
response is returned; and the result depends only on the single exchange
at attempt 0 (no retry). -/
theorem c3_outcome_priority :
    (∀ e : String, classifyMediaOutcome (.sendFailure e)
        = .error (.RequestError ("Failed to send request: " ++ e))) ∧
    (∀ (st : Nat) (t : Except String String) (body : Except String Json),
      isSuccessStatus st = false →
      classifyMediaOutcome (.response st t body) = .error (.ApiError (apiErrorMsg st t))) ∧
    (∀ (st : Nat) (t : Except String String) (e : String),
      isSuccessStatus st = true →
      classifyMediaOutcome (.response st t (.error e))
        = .error (.DeserializationError ("Failed to parse response: " ++ e))) ∧
    (∀ (st : Nat) (t : Except String String) (j : Json),
      isSuccessStatus st = true → decodeResponse j = none →
      classifyMediaOutcome (.response st t (.ok j))
        = .error (.DeserializationError ("Failed to parse response: " ++ untaggedNoMatchMsg))) ∧
    (∀ (st : Nat) (t : Except String String) (j : Json) (r : Response),
      isSuccessStatus st = true → decodeResponse j = some r →
      classifyMediaOutcome (.response st t (.ok j)) = .ok r) ∧
    (∀ (c : Client) (o : Option String) (vd : MediaRequestData)
        (t1 t2 : HttpRequest → Nat → SendOutcome),
      (∀ req, t1 req 0 = t2 req 0) → get_media c o vd t1 = get_media c o vd t2) := by
  refine ⟨fun e => rfl, fun st t body h => by simp [classifyMediaOutcome, h],
    fun st t e h => by simp [classifyMediaOutcome, h],
    fun st t j h hj => by simp [classifyMediaOutcome, h, hj],
    fun st t j r h hj => by simp [classifyMediaOutcome, h, hj],
    fun c o vd t1 t2 h => by simp [get_media, h]⟩

/-- A well-formed error payload as the service sends it. -/
def errorPayload : Json :=
  Json.obj [("status", Json.str "error"),
            ("error", Json.obj [("code", Json.str "error.api.link.invalid")])]

/-- C3 witness: each classification branch at a concrete exchange,
including the HTTP 500 scenario yielding an ApiError carrying status
500. -/
theorem c3_witness :
    classifyMediaOutcome (.sendFailure "connection refused")
        = .error (.RequestError "Failed to send request: connection refused") ∧
    classifyMediaOutcome (.response 500 (.ok "boom") (.ok (Json.obj [])))
        = .error (.ApiError (apiErrorMsg 500 (.ok "boom"))) ∧
    classifyMediaOutcome (.response 200 (.ok "") (.error "expected value at line 1 column 1"))
        = .error (.DeserializationError
            "Failed to parse response: expected value at line 1 column 1") ∧
    classifyMediaOutcome (.response 200 (.ok "") (.ok (Json.obj [])))
        = .error (.DeserializationError ("Failed to parse response: " ++ untaggedNoMatchMsg)) ∧
    classifyMediaOutcome (.response 200 (.ok "") (.ok errorPayload))
        = .ok (.Error ⟨"error", ⟨"error.api.link.invalid", none⟩⟩) :=
  ⟨c3_outcome_priority.1 "connection refused",
   c3_outcome_priority.2.1 500 (.ok "boom") (.ok (Json.obj [])) (by decide),
   c3_outcome_priority.2.2.1 200 (.ok "") "expected value at line 1 column 1" (by decide),
   c3_outcome_priority.2.2.2.1 200 (.ok "") (Json.obj []) (by decide) rfl,
   c3_outcome_priority.2.2.2.2.1 200 (.ok "") errorPayload
     (.Error ⟨"error", ⟨"error.api.link.invalid", none⟩⟩) (by decide) rfl⟩

/-- C4: decoding fails exactly when no variant matches structurally (no
silent coercion into a default variant), a success is exactly one of the
three variants by the shape of the type, and get_status reports precisely
the variant that matched. -/
theorem c4_decode_exclusive :
    (∀ j : Json,
      decodeResponse j = none ↔
        (decodeErrorResponse j = none ∧ decodePickerResponse j = none ∧
          decodeRedirectResponse j = none)) ∧
    (∀ e : ErrorResponse, Response.get_status (.Error e) = .Error) ∧
    (∀ p : PickerResponse, Response.get_status (.Picker p) = .Picker) ∧
    (∀ rr : RedirectResponse, Response.get_status (.Redirect rr) = .Redirect) := by
  refine ⟨fun j => ?_, fun e => rfl, fun p => rfl, fun rr => rfl⟩
  cases h1 : decodeErrorResponse j <;> cases h2 : decodePickerResponse j <;>
    cases h3 : decodeRedirectResponse j <;> simp [decodeResponse, h1, h2, h3]

/-- C9: untagged decoding tries the variants in the fixed declaration
order Error, Picker, Redirect and yields the earliest match, and it is
deterministic: equal payloads decode equally. -/
theorem c9_fixed_trial_order :
    (∀ (j : Json) (e : ErrorResponse),
      decodeErrorResponse j = some e → decodeResponse j = some (.Error e)) ∧
    (∀ (j : Json) (p : PickerResponse),
      decodeErrorResponse j = none → decodePickerResponse j = some p →
      decodeResponse j = some (.Picker p)) ∧
    (∀ (j : Json) (rr : RedirectResponse),
      decodeErrorResponse j = none → decodePickerResponse j = none →
      decodeRedirectResponse j = some rr → decodeResponse j = some (.Redirect rr)) ∧
    (∀ j1 j2 : Json, j1 = j2 → decodeResponse j1 = decodeResponse j2) := by
  refine ⟨fun j e h => by simp [decodeResponse, h],
    fun j p h1 h2 => by simp [decodeResponse, h1, h2],
    fun j rr h1 h2 h3 => by simp [decodeResponse, h1, h2, h3],
    fun j1 j2 h => by rw [h]⟩

/-- A payload matching both the Error shape and the Redirect shape: it has
a well-formed error object and url plus filename fields. -/
def ambiguousPayload : Json :=
  Json.obj [("status", Json.str "error"),
            ("error", Json.obj [("code", Json.str "content.too.long")]),
            ("url", Json.str "https://example.com/v.mp4"),
            ("filename", Json.str "v.mp4")]

/-- C9 witness: the ambiguous payload also matches the Redirect shape, yet
decoding yields the Error variant, the earliest in the trial order. -/
theorem c9_witness :
    decodeRedirectResponse ambiguousPayload
        = some ⟨"error", "https://example.com/v.mp4", "v.mp4"⟩ ∧
    decodeResponse ambiguousPayload
        = some (.Error ⟨"error", ⟨"content.too.long", none⟩⟩) :=
  ⟨rfl, c9_fixed_trial_order.1 ambiguousPayload ⟨"error", ⟨"content.too.long", none⟩⟩ rfl⟩

end Cobalt
